import Mathlib

/-!
Verification of the fore-js Foresight client SDK.

The definitions below are a shallow embedding of `src/fore/src/client.js`
(the published `fore` package; `src/lib/client.js` is an earlier duplicate
of the same logic).  HTTP traffic is modelled by an explicit transport
function from requests to parsed JSON responses or error messages; every
client operation returns, next to its result, the ordered list of HTTP
requests it issued, so that claims about which network calls happen can be
stated and decided.
-/

namespace ForeJs

/-- JSON values as exchanged with the Foresight HTTP API.  Objects are
association lists, so key insertion order is preserved, matching the
iteration order of JavaScript objects built from parsed response bodies
(`Object.entries`). -/
inductive Json where
  | null : Json
  | bool : Bool → Json
  | num : Int → Json
  | str : String → Json
  | arr : List Json → Json
  | obj : List (String × Json) → Json

/-- Characters treated as word separators by the humps `camelize`
regular expression `[\-_\s]+`. -/
def isSep (c : Char) : Bool :=
  c = '-' || c = '_' || c = ' ' || c = '\t' || c = '\n' || c = '\r'

/-- Replacement pass of humps camelize: a run of separators followed by a
character becomes that character upper-cased; trailing separators are
dropped. -/
def camelizeAux : Bool → List Char → List Char
  | _, [] => []
  | afterSep, c :: rest =>
    if isSep c then camelizeAux true rest
    else if afterSep then c.toUpper :: camelizeAux false rest
    else c :: camelizeAux false rest

/-- Lower-case the first character, as humps camelize does after the
replacement pass. -/
def lowerFirst : List Char → List Char
  | [] => []
  | c :: rest => c.toLower :: rest

/-- humps `_isNumerical`: the string matches `/^\d+$/`. -/
def isNumerical (s : String) : Bool :=
  s.length > 0 && s.toList.all Char.isDigit

/-- humps `camelize` on a single key. -/
def camelize (s : String) : String :=
  if isNumerical s then s
  else String.mk (lowerFirst (camelizeAux false s.toList))

mutual

/-- humps `camelizeKeys`, as installed by the Foresight constructor as an
axios response interceptor (`src/fore/src/client.js` lines 37-45): every
object key at every depth is camelized; arrays are traversed; other values
are untouched. -/
def camelizeKeys : Json → Json
  | .null => .null
  | .bool b => .bool b
  | .num n => .num n
  | .str s => .str s
  | .arr xs => .arr (camelizeList xs)
  | .obj fs => .obj (camelizeFields fs)

/-- Key camelization mapped over an array of JSON values. -/
def camelizeList : List Json → List Json
  | [] => []
  | x :: xs => camelizeKeys x :: camelizeList xs

/-- Key camelization mapped over the fields of a JSON object. -/
def camelizeFields : List (String × Json) → List (String × Json)
  | [] => []
  | (k, v) :: fs => (camelize k, camelizeKeys v) :: camelizeFields fs

end

/-- An HTTP request as assembled by `Foresight._makeRequest`: method,
endpoint path, query parameters and optional JSON body.  The fixed
authorization header and timeout are the same on every request and are
not modelled. -/
structure HttpRequest where
  method : String
  endpoint : String
  params : List (String × String)
  body : Option Json

/-- The HTTP transport collaborator: maps a request to the parsed JSON
response data, or to an error message for a network/HTTP failure. -/
def Transport : Type := HttpRequest → Except String Json

/-- `Foresight._makeRequest`: issues the request on the transport and, on
success, hands the response data through the constructor-installed
response interceptor, which camelizes all keys. -/
def _makeRequest (t : Transport) (req : HttpRequest) : Except String Json :=
  match t req with
  | .ok data => .ok (camelizeKeys data)
  | .error e => .error e

/-- `Object.entries` on a parsed JSON value: the fields of an object in
insertion order, and the empty list on non-objects. -/
def objectEntries : Json → List (String × Json)
  | .obj fs => fs
  | _ => []

/-- The keys of a JSON object in order (empty for non-objects). -/
def objKeys : Json → List String
  | .obj fs => fs.map Prod.fst
  | _ => []

/-- Field lookup in a JSON object, first occurrence of the key. -/
def getField : Json → String → Option Json
  | .obj fs, k => (fs.find? (fun kv => kv.fst = k)).map Prod.snd
  | _, _ => none

/-- Number of requests in a trace addressed to a given endpoint. -/
def countEndpoint (ep : String) (tr : List HttpRequest) : Nat :=
  (tr.filter (fun r => r.endpoint = ep)).length

/-- The inference output shape destructured by `generateAnswersAndRunEval`
from the caller-supplied `generateFn` (`generatedResponse` and `contexts`;
any further fields such as `debugInfo` are dropped by the destructuring). -/
structure InferenceOutput where
  generatedResponse : String
  contexts : List String
deriving DecidableEq

/-- The snake_case JSON object built from an inference output for upload
bodies (`generated_response`, `contexts`). -/
def InferenceOutput.toJson (o : InferenceOutput) : Json :=
  .obj [("generated_response", .str o.generatedResponse),
        ("contexts", .arr (o.contexts.map Json.str))]

/-- A buffered log entry as built by `Foresight.log`:
`{ query, inference_output: { generated_response, contexts } }`. -/
structure LogEntry where
  query : String
  generatedResponse : String
  contexts : List String
deriving DecidableEq

/-- The JSON object stored for a log entry, exactly the object literal
built in `log` (`src/fore/src/client.js` lines 265-273). -/
def LogEntry.toJson (e : LogEntry) : Json :=
  .obj [("query", .str e.query),
        ("inference_output",
          .obj [("generated_response", .str e.generatedResponse),
                ("contexts", .arr (e.contexts.map Json.str))])]

/-- The run configuration passed to `createEvalrun` and
`generateAnswersAndRunEval`. -/
structure RunConfig where
  evalsetId : String
  experimentId : String
  metrics : List String

/-- The mutable per-client state relevant to the log buffer: the single
`logEntries` list and the `maxEntriesBeforeAutoFlush` threshold set at
construction (default 10). -/
structure Foresight where
  logEntries : List LogEntry
  maxEntriesBeforeAutoFlush : Nat
deriving DecidableEq

/-- The POST `/api/eval/run` request built by `createEvalrun`. -/
def createEvalrunRequest (rc : RunConfig) : HttpRequest :=
  { method := "post", endpoint := "/api/eval/run", params := [],
    body := some (.obj [("evalset_id", .str rc.evalsetId),
                        ("experiment_id", .str rc.experimentId),
                        ("metrics", .arr (rc.metrics.map Json.str))]) }

/-- The GET `/api/eval/run/queries` request built by `getEvalrunQueries`. -/
def getEvalrunQueriesRequest (experimentId : String) : HttpRequest :=
  { method := "get", endpoint := "/api/eval/run/queries",
    params := [("experiment_id", experimentId)], body := none }

/-- The PUT `/api/eval/run/entries` request built by
`generateAnswersAndRunEval` from the computed outputs. -/
def uploadEntriesRequest (experimentId : String)
    (outputs : List (String × Json)) : HttpRequest :=
  { method := "put", endpoint := "/api/eval/run/entries", params := [],
    body := some (.obj [("experiment_id", .str experimentId),
                        ("entry_id_to_inference_output", .obj outputs)]) }

/-- The PUT `/api/eval/log` request built by `flush` from the buffered
entries: body `{ log_entries: [...] }` and nothing else. -/
def flushRequest (entries : List LogEntry) : HttpRequest :=
  { method := "put", endpoint := "/api/eval/log", params := [],
    body := some (.obj [("log_entries", .arr (entries.map LogEntry.toJson))]) }

/-- `Foresight.createEvalrun`: one POST to `/api/eval/run`; errors are
re-thrown with the same message. -/
def createEvalrun (t : Transport) (rc : RunConfig) :
    Except String Json × List HttpRequest :=
  (_makeRequest t (createEvalrunRequest rc), [createEvalrunRequest rc])

/-- `Foresight.getEvalrunQueries`: one GET to `/api/eval/run/queries`;
the response passes through the interceptor in `_makeRequest`. -/
def getEvalrunQueries (t : Transport) (experimentId : String) :
    Except String Json × List HttpRequest :=
  (_makeRequest t (getEvalrunQueriesRequest experimentId),
   [getEvalrunQueriesRequest experimentId])

/-- The `for (const [entryId, query] of Object.entries(queries))` loop of
`generateAnswersAndRunEval`: calls `generateFn` on each query in order,
stopping at the first thrown error, and collects
`outputs[entryId] = { generated_response, contexts }` in iteration order. -/
def generateOutputs (gf : Json → Except String InferenceOutput) :
    List (String × Json) → Except String (List (String × Json))
  | [] => .ok []
  | (entryId, q) :: rest =>
    match gf q with
    | .error e => .error e
    | .ok out =>
      match generateOutputs gf rest with
      | .error e => .error e
      | .ok outs => .ok ((entryId, out.toJson) :: outs)

/-- `Foresight.generateAnswersAndRunEval` (`src/fore/src/client.js` lines
196-225): create the run, fetch the query mapping, run `generateFn` over
all entries, then upload all outputs in one PUT to
`/api/eval/run/entries` and return that response. -/
def generateAnswersAndRunEval (t : Transport)
    (gf : Json → Except String InferenceOutput) (rc : RunConfig) :
    Except String Json × List HttpRequest :=
  match createEvalrun t rc with
  | (.error e, tr) => (.error e, tr)
  | (.ok _, tr1) =>
    match getEvalrunQueries t rc.experimentId with
    | (.error e, tr2) => (.error e, tr1 ++ tr2)
    | (.ok queries, tr2) =>
      match generateOutputs gf (objectEntries queries) with
      | .error e => (.error e, tr1 ++ tr2)
      | .ok outputs =>
        let req := uploadEntriesRequest rc.experimentId outputs
        (_makeRequest t req, tr1 ++ tr2 ++ [req])

/-- `Foresight.flush` (`src/fore/src/client.js` lines 231-251): with an
empty buffer, log a message and return undefined with no network call;
otherwise PUT all buffered entries to `/api/eval/log` and clear the buffer
only after a successful response.  A transport failure leaves the buffer
untouched and propagates the error message. -/
def Foresight.flush (t : Transport) (st : Foresight) :
    Except String (Option Json) × Foresight × List HttpRequest :=
  if st.logEntries.isEmpty then (.ok none, st, [])
  else
    match _makeRequest t (flushRequest st.logEntries) with
    | .ok data => (.ok (some data), { st with logEntries := [] },
                   [flushRequest st.logEntries])
    | .error e => (.error e, st, [flushRequest st.logEntries])

/-- The arguments of one `log` call. -/
structure LogInput where
  query : String
  response : String
  contexts : List String
deriving DecidableEq

/-- The log entry built by `log` from its arguments. -/
def mkLogEntry (inp : LogInput) : LogEntry :=
  { query := inp.query, generatedResponse := inp.response,
    contexts := inp.contexts }

/-- `Foresight.log` (`src/fore/src/client.js` lines 263-287): append the
new entry to the single `logEntries` buffer (there is no tag parameter),
then, if the buffer length has reached `maxEntriesBeforeAutoFlush`, await
`flush()` before returning; otherwise make no network call. -/
def Foresight.log (t : Transport) (st : Foresight) (inp : LogInput) :
    Except String Unit × Foresight × List HttpRequest :=
  let st1 : Foresight :=
    { st with logEntries := st.logEntries ++ [mkLogEntry inp] }
  if st1.maxEntriesBeforeAutoFlush ≤ st1.logEntries.length then
    match Foresight.flush t st1 with
    | (.ok _, st2, tr) => (.ok (), st2, tr)
    | (.error e, st2, tr) => (.error e, st2, tr)
  else (.ok (), st1, [])

/-- A sequence of `log` calls against the same client, threading the
state and concatenating the issued requests. -/
def runLogs (t : Transport) : List LogInput → Foresight →
    Foresight × List HttpRequest
  | [], st => (st, [])
  | inp :: rest, st =>
    let r1 := Foresight.log t st inp
    let r2 := runLogs t rest r1.2.1
    (r2.1, r1.2.2 ++ r2.2)

/-- The JSON value sent for the reference answer of entry `index`:
`referenceAnswers ? referenceAnswers[index] : null`. -/
def referenceValue (referenceAnswers : Option (List String)) (index : Nat) :
    Json :=
  match referenceAnswers with
  | some refs => (refs.get? index).elim Json.null Json.str
  | none => Json.null

/-- The `evalset_entries` array built by `createSimpleEvalset`:
one `{ query, reference_answer, entry_id }` object per query, with
`entry_id` drawn from the uuid supplier at the query's index. -/
def evalsetEntries (uuid : Nat → String) (queries : List String)
    (referenceAnswers : Option (List String)) : List Json :=
  queries.enum.map fun iq =>
    Json.obj [("query", .str iq.2),
              ("reference_answer", referenceValue referenceAnswers iq.1),
              ("entry_id", .str (uuid iq.1))]

/-- The POST `/api/eval/set` request built by `createSimpleEvalset`. -/
def createEvalsetRequest (uuid : Nat → String) (evalsetId : String)
    (queries : List String) (referenceAnswers : Option (List String)) :
    HttpRequest :=
  { method := "post", endpoint := "/api/eval/set", params := [],
    body := some (.obj [("evalset_id", .str evalsetId),
                        ("evalset_entries",
                         .arr (evalsetEntries uuid queries referenceAnswers))]) }

/-- `Foresight.createSimpleEvalset` (`src/fore/src/client.js` lines
86-115): the two local validations run before any request is built; note
that the `referenceAnswers && ...` truthiness test is passed by every
array, including the empty one, so the length check applies whenever a
list is supplied.  `evalsetId`/`queries` equal to `none` model the
JavaScript `== null` check. -/
def createSimpleEvalset (t : Transport) (uuid : Nat → String)
    (evalsetId : Option String) (queries : Option (List String))
    (referenceAnswers : Option (List String)) :
    Except String Json × List HttpRequest :=
  match evalsetId, queries with
  | some eid, some qs =>
    match referenceAnswers with
    | some refs =>
      if qs.length ≠ refs.length then
        (.error "Number of queries and references must match.", [])
      else
        (_makeRequest t (createEvalsetRequest uuid eid qs (some refs)),
         [createEvalsetRequest uuid eid qs (some refs)])
    | none =>
      (_makeRequest t (createEvalsetRequest uuid eid qs none),
       [createEvalsetRequest uuid eid qs none])
  | _, _ => (.error "evalsetId and queries are required.", [])

/-- A transport that answers every request with JSON `null`. -/
def tOkNull : Transport := fun _ => .ok Json.null

/-- A transport that fails every request with message `boom`. -/
def tFail : Transport := fun _ => .error "boom"

/-- A query mapping with two entries, in a fixed fetch order. -/
def qmapC1 : Json := .obj [("id1", .str "q1"), ("id2", .str "q2")]

/-- A transport serving `qmapC1` as the run's query mapping and an empty
object everywhere else. -/
def tC1 : Transport := fun r =>
  if r.endpoint = "/api/eval/run/queries" then .ok qmapC1 else .ok (.obj [])

/-- A generation function that always succeeds. -/
def gfC1 : Json → Except String InferenceOutput := fun _ => .ok ⟨"ans", []⟩

/-- A concrete run configuration. -/
def rcC1 : RunConfig := ⟨"e1", "x1", ["GROUNDEDNESS"]⟩

/-- A client state with one buffered entry, below the auto-flush
threshold. -/
def stC2 : Foresight :=
  { logEntries := [mkLogEntry ⟨"q", "r", ["c"]⟩], maxEntriesBeforeAutoFlush := 10 }

/-- A transport that answers every request with an empty object. -/
def tOkC2 : Transport := fun _ => .ok (.obj [])

/-- An empty client whose auto-flush threshold is 1, so the very next
`log` call reaches it. -/
def stC3 : Foresight := { logEntries := [], maxEntriesBeforeAutoFlush := 1 }

/-- A concrete `log` call input. -/
def inpC3 : LogInput := ⟨"q", "r", ["c"]⟩

/-- An empty client with the default auto-flush threshold of 10. -/
def stC4 : Foresight := { logEntries := [], maxEntriesBeforeAutoFlush := 10 }

/-- Two `log` call inputs, below the threshold of `stC4`. -/
def inpsC4 : List LogInput := [⟨"q1", "r1", []⟩, ⟨"q2", "r2", ["c2"]⟩]

/-- A client state with one buffered entry. -/
def stC5 : Foresight :=
  { logEntries := [mkLogEntry ⟨"q5", "r5", []⟩], maxEntriesBeforeAutoFlush := 10 }

/-- A transport serving an empty query mapping, and a recognisable string
response for the entries upload. -/
def tC6 : Transport := fun r =>
  if r.endpoint = "/api/eval/run/entries" then .ok (.str "uploaded")
  else .ok (.obj [])

/-- A generation function that always succeeds. -/
def gfC6 : Json → Except String InferenceOutput := fun _ => .ok ⟨"a", []⟩

/-- A concrete run configuration. -/
def rcC6 : RunConfig := ⟨"e6", "x6", []⟩

/-- A query mapping with three entries. -/
def qmapC7 : Json :=
  .obj [("id1", .str "q1"), ("id2", .str "q2"), ("id3", .str "q3")]

/-- A transport serving `qmapC7` as the run's query mapping. -/
def tC7 : Transport := fun r =>
  if r.endpoint = "/api/eval/run/queries" then .ok qmapC7 else .ok (.obj [])

/-- A generation function that throws on the second query `q2` and
succeeds on every other query. -/
def gfC7 : Json → Except String InferenceOutput := fun q =>
  match q with
  | .str "q2" => .error "generateFn failed"
  | _ => .ok ⟨"a", []⟩

/-- A concrete run configuration. -/
def rcC7 : RunConfig := ⟨"e7", "x7", ["SIMILARITY"]⟩

/-- The raw `/api/eval/run/queries` response body of the repository's own
test (`src/fore/__test__/fore.test.js` lines 84-90): opaque snake_case
entry identifiers mapping to queries. -/
def qRawC8 : Json :=
  .obj [("entry_id_1", .str "query1"), ("entry_id_2", .str "query2")]

/-- The same mapping after key camelization. -/
def qCamelC8 : Json :=
  .obj [("entryId1", .str "query1"), ("entryId2", .str "query2")]

/-- A transport that answers every request with `qRawC8`. -/
def tC8 : Transport := fun _ => .ok qRawC8

/-- A deterministic stand-in for the uuid supplier. -/
def uuid0 : Nat → String := fun i => "uuid-" ++ toString i

/-- A non-empty list has `isEmpty = false`. -/
theorem isEmpty_false_of_ne_nil {α : Type} {l : List α} (h : l ≠ []) :
    l.isEmpty = false := by
  cases l with
  | nil => exact absurd rfl h
  | cons a l => rfl

/-- Claim C9: calling `createSimpleEvalset` with a `referenceAnswers` list
whose length differs from `queries` rejects with the message
"Number of queries and references must match." and issues no HTTP request
at all (empty trace: the transport is never invoked). -/
theorem createSimpleEvalset_length_mismatch (t : Transport)
    (uuid : Nat → String) (eid : String) (qs refs : List String)
    (h : qs.length ≠ refs.length) :
    createSimpleEvalset t uuid (some eid) (some qs) (some refs) =
      (.error "Number of queries and references must match.", []) := by
  simp [createSimpleEvalset, h]

/-- Witness for C9: two queries against one reference answer. -/
theorem createSimpleEvalset_length_mismatch_witness :
    (["q1", "q2"] : List String).length ≠ (["a1"] : List String).length ∧
    createSimpleEvalset tOkNull uuid0 (some "e1") (some ["q1", "q2"])
        (some ["a1"]) =
      (.error "Number of queries and references must match.", []) :=
  ⟨by decide,
   createSimpleEvalset_length_mismatch tOkNull uuid0 "e1" ["q1", "q2"] ["a1"]
     (by decide)⟩

/-- Claim C10: an empty `referenceAnswers` list together with a non-empty
`queries` list is a length mismatch (the JavaScript truthiness test
`referenceAnswers && ...` is passed by the empty array), so the call
rejects before any network request; and with `referenceAnswers` absent
(`null`), every built entry carries `reference_answer: null`. -/
theorem createSimpleEvalset_emptyRefs_mismatch (t : Transport)
    (uuid : Nat → String) (eid : String) (qs : List String) (h : qs ≠ []) :
    createSimpleEvalset t uuid (some eid) (some qs) (some []) =
      (.error "Number of queries and references must match.", []) ∧
    ∀ e ∈ evalsetEntries uuid qs none,
      getField e "reference_answer" = some Json.null := by
  constructor
  · have hlen : qs.length ≠ ([] : List String).length := by
      simpa using (List.length_pos.mpr h).ne'
    simp [createSimpleEvalset, h, hlen]
  · intro e he
    obtain ⟨p, _, rfl⟩ := List.mem_map.mp he
    simp [getField, referenceValue, List.find?]

/-- Witness for C10: one query with an empty reference list is rejected
without a request; with `null` references the single built entry has a
`null` reference answer. -/
theorem createSimpleEvalset_emptyRefs_mismatch_witness :
    (["q1"] : List String) ≠ [] ∧
    createSimpleEvalset tOkNull uuid0 (some "e1") (some ["q1"]) (some []) =
      (.error "Number of queries and references must match.", []) ∧
    getField (Json.obj [("query", .str "q1"),
        ("reference_answer", Json.null), ("entry_id", .str (uuid0 0))])
      "reference_answer" = some Json.null :=
  ⟨by decide,
   (createSimpleEvalset_emptyRefs_mismatch tOkNull uuid0 "e1" ["q1"]
      (by decide)).1,
   (createSimpleEvalset_emptyRefs_mismatch tOkNull uuid0 "e1" ["q1"]
      (by decide)).2 _ (by simp [evalsetEntries, referenceValue])⟩

/-- Claim C5: with a non-empty buffer, `flush` issues exactly the one
upload request; on a transport failure the error propagates and the
buffered entries are retained unchanged, while the buffer is cleared
exactly on a successful response. -/
theorem flush_clears_only_on_success (t : Transport) (st : Foresight)
    (h : st.logEntries ≠ []) :
    (∀ e, t (flushRequest st.logEntries) = .error e →
      Foresight.flush t st = (.error e, st, [flushRequest st.logEntries])) ∧
    (∀ j, t (flushRequest st.logEntries) = .ok j →
      Foresight.flush t st =
        (.ok (some (camelizeKeys j)), { st with logEntries := [] },
         [flushRequest st.logEntries])) := by
  have hne := isEmpty_false_of_ne_nil h
  constructor
  · intro e he
    simp [Foresight.flush, hne, _makeRequest, he]
  · intro j hj
    simp [Foresight.flush, hne, _makeRequest, hj]

/-- Witness for C5: a one-entry buffer and a failing transport leave the
state unchanged and propagate the failure message. -/
theorem flush_clears_only_on_success_witness :
    Foresight.flush tFail stC5 =
      (.error "boom", stC5, [flushRequest stC5.logEntries]) :=
  (flush_clears_only_on_success tFail stC5 (by simp [stC5])).1 "boom" rfl

/-- Claim C2 (amended): `log` has no tag parameter and there are no
per-tag buckets; a flush of a non-empty buffer issues exactly one upload
request, whose body is `{ log_entries: [...] }` with all buffered entries
and no other field, in particular no experiment-id-prefix field for any
state. -/
theorem flush_single_request_no_tag (t : Transport) (st : Foresight)
    (h : st.logEntries ≠ []) :
    (Foresight.flush t st).2.2 = [flushRequest st.logEntries] ∧
    (flushRequest st.logEntries).body =
      some (.obj [("log_entries", .arr (st.logEntries.map LogEntry.toJson))]) ∧
    objKeys ((flushRequest st.logEntries).body.getD .null) = ["log_entries"] := by
  have hne := isEmpty_false_of_ne_nil h
  refine ⟨?_, rfl, rfl⟩
  cases hreq : t (flushRequest st.logEntries) with
  | ok j => simp [Foresight.flush, hne, _makeRequest, hreq]
  | error e => simp [Foresight.flush, hne, _makeRequest, hreq]

/-- Witness for C2's amended claim, at a one-entry buffer. -/
theorem flush_single_request_no_tag_witness :
    (Foresight.flush tOkC2 stC2).2.2 = [flushRequest stC2.logEntries] ∧
    (flushRequest stC2.logEntries).body =
      some (.obj [("log_entries", .arr (stC2.logEntries.map LogEntry.toJson))]) ∧
    objKeys ((flushRequest stC2.logEntries).body.getD .null) = ["log_entries"] :=
  flush_single_request_no_tag tOkC2 stC2 (by simp [stC2])

/-- Counterexample for C2 as stated: the upload body built by `flush`
holds the single key `log_entries`; it has neither a `logEntries` nor an
`experimentIdPrefix` key, so the claimed payload shape
`{ logEntries: [...], experimentIdPrefix: tag }` (with the prefix merely
omitted for the default tag) does not match the code, which has no tag
machinery at all. -/
theorem flush_payload_counterexample :
    (Foresight.flush tOkC2 stC2).2.2 = [flushRequest stC2.logEntries] ∧
    objKeys ((flushRequest stC2.logEntries).body.getD .null) = ["log_entries"] ∧
    "logEntries" ∉ objKeys ((flushRequest stC2.logEntries).body.getD .null) ∧
    "experimentIdPrefix" ∉ objKeys ((flushRequest stC2.logEntries).body.getD .null) :=
  ⟨rfl, rfl, by decide, by decide⟩

/-- Claim C3: a `log` call whose append makes the buffer reach exactly
`maxEntriesBeforeAutoFlush` issues exactly the one flush upload before
`log` returns, and a successful upload leaves the buffer empty; a `log`
call that stays below the threshold issues no request and only appends
its entry. -/
theorem log_autoFlush_at_threshold (t : Transport) (st : Foresight)
    (inp : LogInput) :
    (st.logEntries.length + 1 = st.maxEntriesBeforeAutoFlush →
      (Foresight.log t st inp).2.2 =
        [flushRequest (st.logEntries ++ [mkLogEntry inp])] ∧
      ∀ j, t (flushRequest (st.logEntries ++ [mkLogEntry inp])) = .ok j →
        Foresight.log t st inp =
          (.ok (), { st with logEntries := [] },
           [flushRequest (st.logEntries ++ [mkLogEntry inp])])) ∧
    (st.logEntries.length + 1 < st.maxEntriesBeforeAutoFlush →
      Foresight.log t st inp =
        (.ok (), { st with logEntries := st.logEntries ++ [mkLogEntry inp] },
         [])) := by
  constructor
  · intro h
    have hle : st.maxEntriesBeforeAutoFlush ≤ st.logEntries.length + 1 := by
      omega
    have hne : (st.logEntries ++ [mkLogEntry inp]).isEmpty = false :=
      isEmpty_false_of_ne_nil (by simp)
    constructor
    · cases hreq : t (flushRequest (st.logEntries ++ [mkLogEntry inp])) with
      | ok j =>
        simp [Foresight.log, Foresight.flush, _makeRequest, hle, hne, hreq]
      | error e =>
        simp [Foresight.log, Foresight.flush, _makeRequest, hle, hne, hreq]
    · intro j hj
      simp [Foresight.log, Foresight.flush, _makeRequest, hle, hne, hj]
  · intro h
    have hlt : ¬ st.maxEntriesBeforeAutoFlush ≤ st.logEntries.length + 1 := by
      omega
    simp [Foresight.log, hlt]

/-- Witness for C3: threshold 1 and an empty buffer, so the single `log`
call reaches the threshold; with a succeeding transport the flush request
is issued and the buffer ends empty. -/
theorem log_autoFlush_at_threshold_witness :
    stC3.logEntries.length + 1 = stC3.maxEntriesBeforeAutoFlush ∧
    Foresight.log tOkNull stC3 inpC3 =
      (.ok (), { stC3 with logEntries := [] },
       [flushRequest (stC3.logEntries ++ [mkLogEntry inpC3])]) :=
  ⟨by decide,
   ((log_autoFlush_at_threshold tOkNull stC3 inpC3).1 (by decide)).2
     Json.null rfl⟩

/-- Piecewise description of `runLogs` while the buffer stays strictly
below the auto-flush threshold: every call only appends, no request is
issued. -/
theorem runLogs_below_threshold (t : Transport) :
    ∀ (inps : List LogInput) (st : Foresight),
      st.logEntries.length + inps.length < st.maxEntriesBeforeAutoFlush →
      runLogs t inps st =
        ({ st with logEntries := st.logEntries ++ inps.map mkLogEntry }, []) := by
  intro inps
  induction inps with
  | nil => intro st h; simp [runLogs]
  | cons inp rest ih =>
    intro st h
    simp only [List.length_cons] at h
    have hlog : Foresight.log t st inp =
        (.ok (), { st with logEntries := st.logEntries ++ [mkLogEntry inp] },
         []) := by
      have hlt : ¬ st.maxEntriesBeforeAutoFlush ≤ st.logEntries.length + 1 := by
        omega
      simp [Foresight.log, hlt]
    have hrec := ih { st with logEntries := st.logEntries ++ [mkLogEntry inp] }
      (by simp only [List.length_append, List.length_cons, List.length_nil]
          omega)
    simp [runLogs, hlog, hrec]

/-- Claim C4: starting from an empty buffer (the state right after a
successful flush), any sequence of `log` calls short of the auto-flush
threshold leaves the buffer holding exactly one entry per call, in call
order, each entry built from that call's query, response and contexts;
no request is issued. -/
theorem log_calls_accumulate (t : Transport) (st : Foresight)
    (inps : List LogInput) (hempty : st.logEntries = [])
    (h : inps.length < st.maxEntriesBeforeAutoFlush) :
    (runLogs t inps st).1.logEntries = inps.map mkLogEntry ∧
    (runLogs t inps st).1.logEntries.length = inps.length ∧
    (runLogs t inps st).2 = [] := by
  have hrun := runLogs_below_threshold t inps st (by rw [hempty]; simpa using h)
  rw [hrun]
  simp [hempty]

/-- Witness for C4: two `log` calls against an empty client with the
default threshold leave exactly those two entries buffered, in order. -/
theorem log_calls_accumulate_witness :
    stC4.logEntries = [] ∧
    inpsC4.length < stC4.maxEntriesBeforeAutoFlush ∧
    (runLogs tOkNull inpsC4 stC4).1.logEntries = inpsC4.map mkLogEntry ∧
    (runLogs tOkNull inpsC4 stC4).2 = [] :=
  ⟨rfl, by decide,
   (log_calls_accumulate tOkNull stC4 inpsC4 rfl (by decide)).1,
   (log_calls_accumulate tOkNull stC4 inpsC4 rfl (by decide)).2.2⟩

/-- The generation loop preserves the entry identifiers of the fetched
mapping, in iteration order. -/
theorem generateOutputs_keys (gf : Json → Except String InferenceOutput) :
    ∀ (l outs : List (String × Json)),
      generateOutputs gf l = .ok outs → outs.map Prod.fst = l.map Prod.fst := by
  intro l
  induction l with
  | nil =>
    intro outs h
    simp only [generateOutputs, Except.ok.injEq] at h
    simp [← h]
  | cons p rest ih =>
    intro outs h
    obtain ⟨eid, q⟩ := p
    simp only [generateOutputs] at h
    cases hgf : gf q with
    | error e => rw [hgf] at h; exact absurd h (by simp)
    | ok out =>
      rw [hgf] at h
      cases hrec : generateOutputs gf rest with
      | error e => rw [hrec] at h; exact absurd h (by simp)
      | ok outs2 =>
        rw [hrec] at h
        injection h with h
        subst h
        simp [ih outs2 hrec]

/-- Claim C1 (amended): `generateAnswersAndRunEval` has no batch-size
parameter and does no chunking: when run creation, query fetch and all
`generateFn` invocations succeed, the whole trace is the run-creation
request, the query-fetch request and exactly one upload request to
`/api/eval/run/entries` carrying every computed output, keyed by the
fetched mapping's entry identifiers in iteration order; the function
returns that single upload's response. -/
theorem generateAnswers_single_upload (t : Transport)
    (gf : Json → Except String InferenceOutput) (rc : RunConfig)
    (j1 j2 : Json) (outs : List (String × Json))
    (h1 : t (createEvalrunRequest rc) = .ok j1)
    (h2 : t (getEvalrunQueriesRequest rc.experimentId) = .ok j2)
    (h3 : generateOutputs gf (objectEntries (camelizeKeys j2)) = .ok outs) :
    generateAnswersAndRunEval t gf rc =
      (_makeRequest t (uploadEntriesRequest rc.experimentId outs),
       [createEvalrunRequest rc, getEvalrunQueriesRequest rc.experimentId,
        uploadEntriesRequest rc.experimentId outs]) ∧
    countEndpoint "/api/eval/run/entries"
      (generateAnswersAndRunEval t gf rc).2 = 1 ∧
    outs.map Prod.fst = (objectEntries (camelizeKeys j2)).map Prod.fst := by
  have hrun : generateAnswersAndRunEval t gf rc =
      (_makeRequest t (uploadEntriesRequest rc.experimentId outs),
       [createEvalrunRequest rc, getEvalrunQueriesRequest rc.experimentId,
        uploadEntriesRequest rc.experimentId outs]) := by
    simp [generateAnswersAndRunEval, createEvalrun, getEvalrunQueries,
      _makeRequest, h1, h2, h3]
  refine ⟨hrun, ?_, generateOutputs_keys gf _ _ h3⟩
  rw [hrun]
  simp [countEndpoint, createEvalrunRequest, getEvalrunQueriesRequest,
    uploadEntriesRequest]

/-- Witness for C1's amended claim: with two fetched queries the trace
ends in a single upload request holding both outputs. -/
theorem generateAnswers_single_upload_witness :
    generateAnswersAndRunEval tC1 gfC1 rcC1 =
      (_makeRequest tC1 (uploadEntriesRequest rcC1.experimentId
        [("id1", InferenceOutput.toJson ⟨"ans", []⟩),
         ("id2", InferenceOutput.toJson ⟨"ans", []⟩)]),
       [createEvalrunRequest rcC1, getEvalrunQueriesRequest rcC1.experimentId,
        uploadEntriesRequest rcC1.experimentId
          [("id1", InferenceOutput.toJson ⟨"ans", []⟩),
           ("id2", InferenceOutput.toJson ⟨"ans", []⟩)]]) ∧
    countEndpoint "/api/eval/run/entries"
      (generateAnswersAndRunEval tC1 gfC1 rcC1).2 = 1 ∧
    ([("id1", InferenceOutput.toJson ⟨"ans", []⟩),
      ("id2", InferenceOutput.toJson ⟨"ans", []⟩)].map Prod.fst) =
      (objectEntries (camelizeKeys qmapC1)).map Prod.fst :=
  generateAnswers_single_upload tC1 gfC1 rcC1 (.obj []) qmapC1
    [("id1", InferenceOutput.toJson ⟨"ans", []⟩),
     ("id2", InferenceOutput.toJson ⟨"ans", []⟩)] rfl rfl rfl

/-- Counterexample for C1 as stated: for a query mapping with two entries
the code issues exactly one upload call (carrying both entries), not the
two single-entry calls the claim derives from `batchSize=1`; indeed the
function accepts no batch-size parameter at all. -/
theorem generateAnswers_no_batching_counterexample :
    generateAnswersAndRunEval tC1 gfC1 rcC1 =
      (.ok (.obj []),
       [createEvalrunRequest rcC1, getEvalrunQueriesRequest "x1",
        uploadEntriesRequest "x1"
          [("id1", InferenceOutput.toJson ⟨"ans", []⟩),
           ("id2", InferenceOutput.toJson ⟨"ans", []⟩)]]) ∧
    countEndpoint "/api/eval/run/entries"
      (generateAnswersAndRunEval tC1 gfC1 rcC1).2 = 1 ∧
    countEndpoint "/api/eval/run/entries"
      (generateAnswersAndRunEval tC1 gfC1 rcC1).2 ≠ 2 :=
  ⟨rfl, rfl, by decide⟩

/-- Claim C6 (amended): when the fetched query mapping is empty,
`generateAnswersAndRunEval` does not return early: it still issues one
upload call to `/api/eval/run/entries` whose
`entry_id_to_inference_output` is the empty object, and returns that
call's response. -/
theorem generateAnswers_emptyMapping_uploads (t : Transport)
    (gf : Json → Except String InferenceOutput) (rc : RunConfig)
    (j1 j2 : Json)
    (h1 : t (createEvalrunRequest rc) = .ok j1)
    (h2 : t (getEvalrunQueriesRequest rc.experimentId) = .ok j2)
    (hempty : objectEntries (camelizeKeys j2) = []) :
    generateAnswersAndRunEval t gf rc =
      (_makeRequest t (uploadEntriesRequest rc.experimentId []),
       [createEvalrunRequest rc, getEvalrunQueriesRequest rc.experimentId,
        uploadEntriesRequest rc.experimentId []]) ∧
    countEndpoint "/api/eval/run/entries"
      (generateAnswersAndRunEval t gf rc).2 = 1 := by
  have hrun : generateAnswersAndRunEval t gf rc =
      (_makeRequest t (uploadEntriesRequest rc.experimentId []),
       [createEvalrunRequest rc, getEvalrunQueriesRequest rc.experimentId,
        uploadEntriesRequest rc.experimentId []]) := by
    simp [generateAnswersAndRunEval, createEvalrun, getEvalrunQueries,
      _makeRequest, h1, h2, hempty, generateOutputs]
  refine ⟨hrun, ?_⟩
  rw [hrun]
  simp [countEndpoint, createEvalrunRequest, getEvalrunQueriesRequest,
    uploadEntriesRequest]

/-- Witness for C6's amended claim at a concrete transport serving an
empty mapping. -/
theorem generateAnswers_emptyMapping_uploads_witness :
    generateAnswersAndRunEval tC6 gfC6 rcC6 =
      (_makeRequest tC6 (uploadEntriesRequest rcC6.experimentId []),
       [createEvalrunRequest rcC6, getEvalrunQueriesRequest rcC6.experimentId,
        uploadEntriesRequest rcC6.experimentId []]) ∧
    countEndpoint "/api/eval/run/entries"
      (generateAnswersAndRunEval tC6 gfC6 rcC6).2 = 1 :=
  generateAnswers_emptyMapping_uploads tC6 gfC6 rcC6 (.obj []) (.obj [])
    rfl rfl rfl

/-- Counterexample for C6 as stated: with an empty query mapping the
operation neither returns undefined nor stops short of the upload — it
issues the upload call (count 1, not 0) and returns that call's
response. -/
theorem generateAnswers_emptyMapping_counterexample :
    generateAnswersAndRunEval tC6 gfC6 rcC6 =
      (.ok (.str "uploaded"),
       [createEvalrunRequest rcC6, getEvalrunQueriesRequest "x6",
        uploadEntriesRequest "x6" []]) ∧
    countEndpoint "/api/eval/run/entries"
      (generateAnswersAndRunEval tC6 gfC6 rcC6).2 = 1 ∧
    countEndpoint "/api/eval/run/entries"
      (generateAnswersAndRunEval tC6 gfC6 rcC6).2 ≠ 0 :=
  ⟨rfl, rfl, by decide⟩

/-- Claim C7: when `generateFn` fails on some fetched query, the whole
operation fails with that error, the trace is exactly the run-creation
and query-fetch requests already issued (they are not undone, nothing is
compensated), and no upload call to `/api/eval/run/entries` is made. -/
theorem generateFn_error_aborts (t : Transport)
    (gf : Json → Except String InferenceOutput) (rc : RunConfig)
    (j1 j2 : Json) (e : String)
    (h1 : t (createEvalrunRequest rc) = .ok j1)
    (h2 : t (getEvalrunQueriesRequest rc.experimentId) = .ok j2)
    (h3 : generateOutputs gf (objectEntries (camelizeKeys j2)) = .error e) :
    generateAnswersAndRunEval t gf rc =
      (.error e,
       [createEvalrunRequest rc, getEvalrunQueriesRequest rc.experimentId]) ∧
    countEndpoint "/api/eval/run/entries"
      (generateAnswersAndRunEval t gf rc).2 = 0 := by
  have hrun : generateAnswersAndRunEval t gf rc =
      (.error e,
       [createEvalrunRequest rc, getEvalrunQueriesRequest rc.experimentId]) := by
    simp [generateAnswersAndRunEval, createEvalrun, getEvalrunQueries,
      _makeRequest, h1, h2, h3]
  refine ⟨hrun, ?_⟩
  rw [hrun]
  simp [countEndpoint, createEvalrunRequest, getEvalrunQueriesRequest]

/-- Witness for C7: `generateFn` throws on the second of three fetched
queries; the error propagates and zero upload calls appear in the
trace. -/
theorem generateFn_error_aborts_witness :
    generateAnswersAndRunEval tC7 gfC7 rcC7 =
      (.error "generateFn failed",
       [createEvalrunRequest rcC7, getEvalrunQueriesRequest rcC7.experimentId]) ∧
    countEndpoint "/api/eval/run/entries"
      (generateAnswersAndRunEval tC7 gfC7 rcC7).2 = 0 :=
  generateFn_error_aborts tC7 gfC7 rcC7 (.obj []) qmapC7 "generateFn failed"
    rfl rfl rfl

/-- Claim C8: the constructor-installed response interceptor camelizes the
keys of every response, including the `/api/eval/run/queries` response,
whose opaque entry identifiers are altered — contradicting both the claim
and the repository's own test, which expects that body back unmodified.
At the test's own response body the returned keys differ from the wire
keys. -/
theorem getEvalrunQueries_camelized_bug :
    (getEvalrunQueries tC8 "mock-experiment-id").1 = .ok qCamelC8 ∧
    tC8 (getEvalrunQueriesRequest "mock-experiment-id") = .ok qRawC8 ∧
    objKeys qCamelC8 ≠ objKeys qRawC8 :=
  ⟨rfl, rfl, by decide⟩

end ForeJs
